import Mathlib

/-!
Verification of the snapshot-diff file monitor of `go_file_manager`.

The Go sources are shallowly embedded: pure data is mapped to Lean
structures, the filesystem walk is modelled as a recursion over an
explicit directory tree, Go maps become association lists, and the
event-sink calls (`logger.LogEvent`) become an explicit list of emitted
events.  Machine integers (`int64`) are mapped to `Int`; no arithmetic
in the monitor can overflow-wrap, so no modular reduction is needed.
`time.Time` values are compared only with `Equal`, so modification
times are mapped to `Nat` tick counts compared with `=`.
-/

/-- Embeds `monitor.FileInfo` (part_004 lines 17-23): one observed
filesystem entry.  `Hash` is the `string` zero value `""` unless set. -/
structure FileInfo where
  path : String
  size : Int
  modTime : Nat
  hash : String
  isDir : Bool
deriving DecidableEq, Repr

/-- A snapshot: the Go `map[string]FileInfo` as an association list.
Key uniqueness (a Go map invariant) is a `Nodup` hypothesis where needed. -/
abbrev Snap := List (String × FileInfo)

/-- Go map indexing `files[path]`: first binding of the key, if any. -/
def lookupSnap : Snap → String → Option FileInfo
  | [], _ => none
  | (k, v) :: rest, p => if k = p then some v else lookupSnap rest p

/-- One `logger.LogEvent(kind, path)` call made by `detectChanges`:
`created` = "CRIADO", `modified` = "MODIFICADO", `deleted` = "EXCLUÍDO". -/
inductive Event where
  | created (path : String)
  | modified (path : String)
  | deleted (path : String)
deriving DecidableEq, Repr

/-- The modification test of part_004 line 169:
`!newInfo.IsDir && (newInfo.Size != oldInfo.Size || !newInfo.ModTime.Equal(oldInfo.ModTime) || (newInfo.Hash != "" && oldInfo.Hash != "" && newInfo.Hash != oldInfo.Hash))`. -/
def modCond (newInfo oldInfo : FileInfo) : Prop :=
  newInfo.isDir = false ∧
    (newInfo.size ≠ oldInfo.size ∨ newInfo.modTime ≠ oldInfo.modTime ∨
      (newInfo.hash ≠ "" ∧ oldInfo.hash ≠ "" ∧ newInfo.hash ≠ oldInfo.hash))

instance (newInfo oldInfo : FileInfo) : Decidable (modCond newInfo oldInfo) := by
  unfold modCond; exact inferInstance

/-- The inner loop of `detectChanges` (part_004 lines 173-177): one full
pass over `oldFiles`, emitting "EXCLUÍDO" for every old path missing
from `newFiles`.  In the source this loop sits INSIDE the loop over
`newFiles`, so it is re-run once per `newFiles` entry. -/
def deletedPass (oldFiles newFiles : Snap) : List Event :=
  (oldFiles.filter (fun kv => (lookupSnap newFiles kv.1).isNone)).map
    (fun kv => Event.deleted kv.1)

/-- The outer loop of `detectChanges` (part_004 lines 164-178), iterating
over the third argument (the part of `newFiles` not yet visited).  Each
iteration emits CRIADO/MODIFICADO for its entry and then re-runs the
nested deletion pass over the full snapshots. -/
def detectChangesGo (oldFiles newFiles : Snap) : Snap → List Event
  | [] => []
  | (path, newInfo) :: rest =>
      (match lookupSnap oldFiles path with
        | none => [Event.created path]
        | some oldInfo =>
            if modCond newInfo oldInfo then [Event.modified path] else [])
      ++ deletedPass oldFiles newFiles
      ++ detectChangesGo oldFiles newFiles rest

/-- Embeds `(*FileMonitor).detectChanges` (part_004 lines 163-179): the
list of `LogEvent` calls, in emission order, for one old/new snapshot
pair. -/
def detectChanges (oldFiles newFiles : Snap) : List Event :=
  detectChangesGo oldFiles newFiles newFiles

/-- `filepath.Ext(path)`: the suffix of the final slash-separated
element beginning at its final dot, or `""` when that element has no
dot.  Implemented by scanning the reversed character list. -/
def fileExtGo : List Char → List Char → String
  | [], _ => ""
  | '.' :: _, acc => String.mk ('.' :: acc)
  | '/' :: _, _ => ""
  | c :: rest, acc => fileExtGo rest (c :: acc)

/-- `filepath.Ext` on a whole path string. -/
def fileExt (path : String) : String :=
  fileExtGo path.toList.reverse []

/-- Embeds `(*FileMonitor).shouldIgnore` (part_004 lines 89-97):
the path's extension is looked up in `config.IgnoreExts`. -/
def shouldIgnore (ignoreExts : List String) (path : String) : Bool :=
  ignoreExts.contains (fileExt path)

/-- `filepath.Join(dir, name)` for the shapes `filepath.Walk` produces:
`name` is a plain entry name (no separator, not `"."` or `".."`), and
`dir` is either `"."` or an already-joined path.  `Join` runs `Clean`
on the result, which drops the `"."` component, hence the first case. -/
def joinPath (dir name : String) : String :=
  if dir = "." then name else dir ++ "/" ++ name

/-- A directory tree as seen by `filepath.Walk`: each node carries its
entry name, `Size()`, `ModTime()` tick, and whether `lstat` of this
node fails (the `err != nil` argument of the walk callback).  A `dir`'s
children are listed in the sorted order `Walk` visits them. -/
inductive FSNode where
  | file (name : String) (size : Int) (modTime : Nat) (statErr : Bool)
  | dir (name : String) (size : Int) (modTime : Nat) (statErr : Bool)
      (children : List FSNode)
deriving Repr

/-- The entry name of a node, as `Walk` joins it onto the parent path. -/
def FSNode.name : FSNode → String
  | .file n _ _ _ => n
  | .dir n _ _ _ _ => n

/-- The opaque error value carried by a failed `lstat` of `path`. -/
def statMsg (path : String) : String := "lstat " ++ path

mutual
/-- Embeds `filepath.Walk` specialised to the callback of
`scanDirectory` (part_004 lines 125-147) at one node whose joined path
is `path`: a stat error aborts the whole walk with that error; a
directory equal (as a string) to `config.LogDir` is skipped entirely
(`filepath.SkipDir`); a non-directory whose extension is ignored is not
recorded; every other entry is recorded with `Hash` left at the string
zero value `""` (the literal at lines 138-143 never sets `Hash`). -/
def walkNode (logDir : String) (ignoreExts : List String) (path : String) :
    FSNode → Except String Snap
  | FSNode.file _ size modTime statErr =>
      if statErr then Except.error (statMsg path)
      else if shouldIgnore ignoreExts path then Except.ok []
      else Except.ok
        [(path, { path := path, size := size, modTime := modTime, hash := "", isDir := false })]
  | FSNode.dir _ size modTime statErr children =>
      if statErr then Except.error (statMsg path)
      else if path = logDir then Except.ok []
      else
        match walkChildren logDir ignoreExts path children with
        | Except.error e => Except.error e
        | Except.ok rest => Except.ok
            ((path, { path := path, size := size, modTime := modTime, hash := "", isDir := true }) :: rest)

/-- Walks the children of a directory whose joined path is `dirPath`,
left to right, propagating the first error. -/
def walkChildren (logDir : String) (ignoreExts : List String) (dirPath : String) :
    List FSNode → Except String Snap
  | [] => Except.ok []
  | c :: cs =>
      match walkNode logDir ignoreExts (joinPath dirPath c.name) c with
      | Except.error e => Except.error e
      | Except.ok s1 =>
          match walkChildren logDir ignoreExts dirPath cs with
          | Except.error e => Except.error e
          | Except.ok s2 => Except.ok (s1 ++ s2)
end

/-- A Go `chan struct\x7b\x7d` used as a one-shot signal: `gen` models the
channel's identity (which `make(chan struct\x7b\x7d)` call produced it) and
`closed` whether `close` has been called on it.  Go panics when `close`
is called on an already-closed channel. -/
structure Chan where
  gen : Nat
  closed : Bool
deriving DecidableEq, Repr

/-- Embeds `monitor.FileMonitor` (part_004 lines 25-32).  The
`sync.RWMutex` is not a field here: each lock-protected critical
section of the source is modelled as one atomic step. -/
structure FileMonitor where
  watchDir : String
  logDir : String
  ignoreExts : List String
  files : Snap
  isRunnig : Bool
  stopChan : Chan
deriving DecidableEq, Repr

/-- Embeds `NewFileMonitor` (part_004 lines 34-41): empty snapshot, not
running, and a fresh open stop channel (generation 0). -/
def NewFileMonitor (watchDir logDir : String) (ignoreExts : List String) : FileMonitor :=
  { watchDir := watchDir, logDir := logDir, ignoreExts := ignoreExts,
    files := [], isRunnig := false, stopChan := { gen := 0, closed := false } }

/-- Outcome of one `scanDirectory` call: the returned error (if any),
the `LogEvent` calls it made, and the monitor state afterwards. -/
structure ScanResult where
  err : Option String
  events : List Event
  monitor : FileMonitor
deriving DecidableEq, Repr

/-- Embeds `(*FileMonitor).scanDirectory` (part_004 lines 115-161) on a
directory tree `fs` rooted at `config.WatchDir`: copy the old snapshot,
walk the tree; on a walk error, log it (a plain `Log` line, not a
change event) and return the error with the stored snapshot unchanged;
otherwise emit the diff events and swap in the new snapshot. -/
def scanDirectory (m : FileMonitor) (fs : FSNode) : ScanResult :=
  let oldFiles := m.files
  match walkNode m.logDir m.ignoreExts m.watchDir fs with
  | Except.error e => { err := some e, events := [], monitor := m }
  | Except.ok currentFiles =>
      { err := none,
        events := detectChanges oldFiles currentFiles,
        monitor := { m with files := currentFiles } }

/-- The two distinct error values `Start` can return: the
`fmt.Errorf("o arquivo já está sendo monitorado")` guard error, or the
error propagated from the initial `scanDirectory`. -/
inductive StartErr where
  | alreadyRunning
  | scanFailed (e : String)
deriving DecidableEq, Repr

deriving instance DecidableEq for Except

/-- Outcome of one `Start` call: the returned value, the `LogEvent`
calls of the synchronous initial scan, the monitor state afterwards,
and whether `go m.monitorLoop()` was launched. -/
structure StartResult where
  res : Except StartErr Unit
  events : List Event
  monitor : FileMonitor
  spawned : Bool
deriving DecidableEq, Repr

/-- Embeds `(*FileMonitor).Start` (part_004 lines 43-63): under the
mutex, fail if already running, else set the running flag; then run the
synchronous initial scan, rolling the flag back and returning the error
on failure; on success spawn the poll loop.  Note the source never
touches `stopChan` here. -/
def Start (m : FileMonitor) (fs : FSNode) : StartResult :=
  if m.isRunnig then
    { res := Except.error StartErr.alreadyRunning, events := [], monitor := m, spawned := false }
  else
    let m1 : FileMonitor := { m with isRunnig := true }
    let s := scanDirectory m1 fs
    match s.err with
    | some e =>
        { res := Except.error (StartErr.scanFailed e), events := s.events,
          monitor := { s.monitor with isRunnig := false }, spawned := false }
    | none =>
        { res := Except.ok (), events := s.events, monitor := s.monitor, spawned := true }

/-- Embeds `(*FileMonitor).Stop` (part_004 lines 65-73): no-op when not
running; otherwise `close(m.stopChan)` and clear the running flag.
`none` models the Go runtime panic `close of closed channel`. -/
def Stop (m : FileMonitor) : Option FileMonitor :=
  if m.isRunnig then
    if m.stopChan.closed then none
    else some { m with isRunnig := false,
                       stopChan := { m.stopChan with closed := true } }
  else some m

/-- The first critical section of `Start` (part_004 lines 44-51), held
under `m.mutex`: atomically check the running flag and either fail
(`false`) or set it (`true`).  Concurrent `Start` calls serialise into
a sequence of these atomic steps. -/
def startCS (m : FileMonitor) : Bool × FileMonitor :=
  if m.isRunnig then (false, m) else (true, { m with isRunnig := true })

/-- Any serialisation of `n` concurrent `Start` critical sections: the
list of check-and-set outcomes, in mutex-acquisition order. -/
def runStartCS : Nat → FileMonitor → List Bool
  | 0, _ => []
  | Nat.succ k, m => (startCS m).1 :: runStartCS k (startCS m).2

/-- What one iteration of `monitorLoop` (part_004 lines 79-86) does. -/
inductive LoopAction where
  | scan
  | exit
deriving DecidableEq, Repr

/-- The `select` of `monitorLoop` (part_004 lines 80-85).  Go blocks
until a case is ready (`none`); with exactly one ready case it takes
it; with BOTH ready it chooses uniformly at random between them — the
random draw is the `pick` argument (`true` = stop case).  The source
gives the stop case no priority. -/
def goSelect (timerReady stopReady : Bool) (pick : Bool) : Option LoopAction :=
  match timerReady, stopReady with
  | false, false => none
  | true, false => some LoopAction.scan
  | false, true => some LoopAction.exit
  | true, true => some (if pick then LoopAction.exit else LoopAction.scan)

/-- `config.LoadConfig` defaults (config.go lines 19-27) with no
environment overrides: `WatchDir "."`, `LogDir "./logs"`,
`IgnoreExts [".temp", ".swp"]`. -/
def defaultWatchDir : String := "."

/-- Default `config.LogDir` (config.go line 22). -/
def defaultLogDir : String := "./logs"

/-- Default `config.IgnoreExts` (config.go line 26). -/
def defaultIgnoreExts : List String := [".temp", ".swp"]

/-! ## Helper lemmas about snapshots and event counting -/

/-- A key misses in `lookupSnap` exactly when it is not among the keys. -/
lemma lookupSnap_eq_none (p : String) :
    ∀ n : Snap, (lookupSnap n p = none ↔ p ∉ n.map Prod.fst)
  | [] => by simp [lookupSnap]
  | (q, v) :: rest => by
      by_cases hq : q = p <;>
        simp [lookupSnap, hq, lookupSnap_eq_none p rest, Ne.symm]

/-- The deletion pass emits no CRIADO events. -/
lemma deletedPass_count_created (o n : Snap) (p : String) :
    (deletedPass o n).count (Event.created p) = 0 := by
  rw [List.count_eq_zero]
  intro hmem
  rcases List.mem_map.mp hmem with ⟨kv, _, heq⟩
  exact Event.noConfusion heq

/-- The deletion pass emits no MODIFICADO events. -/
lemma deletedPass_count_modified (o n : Snap) (p : String) :
    (deletedPass o n).count (Event.modified p) = 0 := by
  rw [List.count_eq_zero]
  intro hmem
  rcases List.mem_map.mp hmem with ⟨kv, _, heq⟩
  exact Event.noConfusion heq

/-- A key-filtered `countP` vanishes when the key is absent. -/
lemma countP_keyh_zero (p : String) (h : String × FileInfo → Bool) :
    ∀ n : Snap, p ∉ n.map Prod.fst →
      n.countP (fun kv => decide (kv.1 = p) && h kv) = 0
  | [], _ => by simp
  | (q, v) :: rest, hmem => by
      have hq : ¬ q = p := by intro e; exact hmem (by simp [e])
      have hrest : p ∉ rest.map Prod.fst := by
        intro hr; exact hmem (by simp [hr])
      rw [List.countP_cons]
      simp [hq, countP_keyh_zero p h rest hrest]

/-- With `Nodup` keys, a key-filtered `countP` is decided by the unique
binding of the key. -/
lemma countP_keyh (p : String) (h : String × FileInfo → Bool) :
    ∀ n : Snap, (n.map Prod.fst).Nodup → ∀ ni, lookupSnap n p = some ni →
      n.countP (fun kv => decide (kv.1 = p) && h kv) = if h (p, ni) then 1 else 0
  | [], _, ni, hl => by simp [lookupSnap] at hl
  | (q, v) :: rest, hnd, ni, hl => by
      rw [List.map_cons, List.nodup_cons] at hnd
      rw [List.countP_cons]
      by_cases hq : q = p
      · subst hq
        simp [lookupSnap] at hl
        subst hl
        rw [countP_keyh_zero q h rest hnd.1]
        simp
      · simp only [lookupSnap, if_neg hq] at hl
        rw [countP_keyh p h rest hnd.2 ni hl]
        simp [hq]

/-- Counting CRIADO events across the outer loop: each visited entry
contributes one iff its key matches and is absent from the old
snapshot; the nested deletion passes contribute none. -/
lemma detectChangesGo_count_created (o n : Snap) (p : String) :
    ∀ l : Snap, (detectChangesGo o n l).count (Event.created p) =
      l.countP (fun kv => decide (kv.1 = p) && (lookupSnap o kv.1).isNone)
  | [] => by simp [detectChangesGo]
  | (q, ni) :: rest => by
      rw [detectChangesGo, List.count_append, List.count_append,
        deletedPass_count_created, List.countP_cons,
        detectChangesGo_count_created o n p rest]
      cases hq : lookupSnap o q with
      | none =>
          by_cases hqp : q = p <;>
            simp [hq, hqp, List.count_cons, Nat.add_comm]
      | some oi =>
          by_cases hm : modCond ni oi <;>
            simp [hq, hm, List.count_cons]

/-- Counting MODIFICADO events across the outer loop: each visited entry
contributes one iff its key matches, it is present in the old snapshot,
and the source's modification test holds; deletion passes contribute
none. -/
lemma detectChangesGo_count_modified (o n : Snap) (p : String) :
    ∀ l : Snap, (detectChangesGo o n l).count (Event.modified p) =
      l.countP (fun kv => decide (kv.1 = p) &&
        (match lookupSnap o kv.1 with
          | some oi => decide (modCond kv.2 oi)
          | none => false))
  | [] => by simp [detectChangesGo]
  | (q, ni) :: rest => by
      rw [detectChangesGo, List.count_append, List.count_append,
        deletedPass_count_modified, List.countP_cons,
        detectChangesGo_count_modified o n p rest]
      cases hq : lookupSnap o q with
      | none =>
          simp [hq, List.count_cons]
      | some oi =>
          by_cases hm : modCond ni oi
          · by_cases hqp : q = p <;>
              simp [hq, hm, hqp, List.count_cons, Nat.add_comm]
          · simp [hq, hm, List.count_cons]

/-! ## Claim theorems -/

/-- C5: for every scan, each path present in the new snapshot and absent
from the old snapshot yields exactly one `Created` event (and a path not
in that situation yields none); with the empty initial snapshot as
`oldFiles` this makes the first scan emit exactly one `Created` event
per recorded path. -/
theorem c5_created_exactly_once (o n : Snap) (p : String)
    (hnd : (n.map Prod.fst).Nodup) :
    (detectChanges o n).count (Event.created p) =
      if (lookupSnap n p).isSome = true ∧ lookupSnap o p = none then 1 else 0 := by
  rw [detectChanges, detectChangesGo_count_created]
  cases hl : lookupSnap n p with
  | none =>
      rw [countP_keyh_zero p _ n ((lookupSnap_eq_none p n).mp hl)]
      simp [hl]
  | some ni =>
      rw [countP_keyh p _ n hnd ni hl]
      by_cases ho : lookupSnap o p = none <;> simp [hl, ho]

/-- Witness for C5 at a concrete first scan. -/
theorem c5_created_exactly_once_witness :
    ((([("b.txt", ({ path := "b.txt", size := 5, modTime := 2, hash := "", isDir := false } : FileInfo))] : Snap).map Prod.fst).Nodup) ∧
    (detectChanges []
        [("b.txt", { path := "b.txt", size := 5, modTime := 2, hash := "", isDir := false })]).count
      (Event.created "b.txt") = 1 :=
  ⟨by decide,
   (c5_created_exactly_once []
      [("b.txt", { path := "b.txt", size := 5, modTime := 2, hash := "", isDir := false })]
      "b.txt" (by decide)).trans (by decide)⟩

/-- C6: for a path present in both snapshots, a `Modified` event is
emitted exactly once iff the new entry is not a directory and its size
differs, or its modification time differs, or both fingerprints are
non-empty and differ; directory entries never yield `Modified`. -/
theorem c6_modified_condition (o n : Snap) (p : String) (ni oi : FileInfo)
    (hnd : (n.map Prod.fst).Nodup)
    (hn : lookupSnap n p = some ni) (ho : lookupSnap o p = some oi) :
    ((detectChanges o n).count (Event.modified p) =
      if ni.isDir = false ∧ (ni.size ≠ oi.size ∨ ni.modTime ≠ oi.modTime ∨
          (ni.hash ≠ "" ∧ oi.hash ≠ "" ∧ ni.hash ≠ oi.hash)) then 1 else 0) ∧
    (ni.isDir = true → (detectChanges o n).count (Event.modified p) = 0) := by
  have hcount : (detectChanges o n).count (Event.modified p) =
      if modCond ni oi then 1 else 0 := by
    rw [detectChanges, detectChangesGo_count_modified,
      countP_keyh p _ n hnd ni hn]
    simp only [ho]
    by_cases hm : modCond ni oi <;> simp [hm]
  constructor
  · rw [hcount]; rfl
  · intro hdir
    rw [hcount, if_neg]
    intro hm
    rw [hm.1] at hdir
    exact Bool.noConfusion hdir

/-- Witness for C6 at a concrete size change. -/
theorem c6_modified_condition_witness :
    (detectChanges
        [("a.txt", { path := "a.txt", size := 10, modTime := 1, hash := "", isDir := false })]
        [("a.txt", { path := "a.txt", size := 0, modTime := 1, hash := "", isDir := false })]).count
      (Event.modified "a.txt") = 1 :=
  (c6_modified_condition
      [("a.txt", { path := "a.txt", size := 10, modTime := 1, hash := "", isDir := false })]
      [("a.txt", { path := "a.txt", size := 0, modTime := 1, hash := "", isDir := false })]
      "a.txt"
      { path := "a.txt", size := 0, modTime := 1, hash := "", isDir := false }
      { path := "a.txt", size := 10, modTime := 1, hash := "", isDir := false }
      (by decide) (by decide) (by decide)).1.trans (by decide)

/-- C1 (code evaluation): the deletion pass of `detectChanges` is nested
inside the loop over the new snapshot, so a path deleted while the new
snapshot is empty produces NO `Deleted` event, and a path deleted while
two entries survive produces TWO `Deleted` events — not exactly one. -/
theorem c1_nested_deletion_eval :
    detectChanges
        [("a.txt", { path := "a.txt", size := 10, modTime := 1, hash := "", isDir := false })]
        [] = [] ∧
    (detectChanges
        [("a.txt", { path := "a.txt", size := 10, modTime := 1, hash := "", isDir := false })]
        [("b.txt", { path := "b.txt", size := 5, modTime := 2, hash := "", isDir := false }),
         ("c.txt", { path := "c.txt", size := 7, modTime := 3, hash := "", isDir := false })]).count
      (Event.deleted "a.txt") = 2 := by
  constructor
  · rfl
  · decide

/-- The directory tree used to evaluate C7: the watch root `"."`
containing `a.txt` and the log directory `logs` with one log file. -/
def c7tree : FSNode :=
  FSNode.dir "." 64 0 false
    [ FSNode.file "a.txt" 10 1 false,
      FSNode.dir "logs" 64 0 false [FSNode.file "app.log" 3 1 false] ]

/-- The snapshot the scan records for `c7tree` under the default
configuration. -/
def c7snap : Snap :=
  [(".", { path := ".", size := 64, modTime := 0, hash := "", isDir := true }),
   ("a.txt", { path := "a.txt", size := 10, modTime := 1, hash := "", isDir := false }),
   ("logs", { path := "logs", size := 64, modTime := 0, hash := "", isDir := true }),
   ("logs/app.log", { path := "logs/app.log", size := 3, modTime := 1, hash := "", isDir := false })]

/-- C7 (code evaluation): under the default configuration
(`WatchDir "."`, `LogDir "./logs"`), `filepath.Walk` hands the callback
the cleaned path `"logs"`, which never equals the configured string
`"./logs"`, so the log directory is NOT pruned: it and its contents are
recorded and generate `Created` events.  Pruning only happens when the
configured string matches the walk's spelling (`"logs"`), as the last
conjunct shows. -/
theorem c7_logdir_not_pruned_default :
    walkNode defaultLogDir defaultIgnoreExts defaultWatchDir c7tree = Except.ok c7snap ∧
    (lookupSnap c7snap "logs").isSome = true ∧
    (lookupSnap c7snap "logs/app.log").isSome = true ∧
    (detectChanges [] c7snap).count (Event.created "logs/app.log") = 1 ∧
    walkNode "logs" defaultIgnoreExts defaultWatchDir c7tree = Except.ok
      [(".", { path := ".", size := 64, modTime := 0, hash := "", isDir := true }),
       ("a.txt", { path := "a.txt", size := 10, modTime := 1, hash := "", isDir := false })] := by
  refine ⟨rfl, rfl, rfl, by decide, rfl⟩

/-- The empty watch root used for the C2 lifecycle trace. -/
def c2fs : FSNode := FSNode.dir "." 64 0 false []

/-- Monitor as constructed for the C2 trace. -/
def c2m0 : FileMonitor := NewFileMonitor "." "./logs" [".temp", ".swp"]

/-- Monitor after the first `Start`. -/
def c2m1 : FileMonitor := (Start c2m0 c2fs).monitor

/-- Monitor after the first `Stop`. -/
def c2m2 : FileMonitor := (Stop c2m1).getD c2m0

/-- Monitor after the second `Start` (after `Stop`). -/
def c2m3 : FileMonitor := (Start c2m2 c2fs).monitor

/-- C2 (code evaluation): `Start` never constructs a fresh stop channel
(only `NewFileMonitor` does), so after Start–Stop–Start the monitor
still holds the generation-0, already-closed channel: the re-started
loop observes the previous cycle's stop signal (its `select` exits
immediately), and a second `Stop` calls `close` on an already-closed
channel, a Go runtime panic (modelled as `none`). -/
theorem c2_stop_channel_reused :
    (Start c2m0 c2fs).res = Except.ok () ∧
    (Start c2m0 c2fs).spawned = true ∧
    Stop c2m1 = some c2m2 ∧
    c2m2.stopChan = { gen := 0, closed := true } ∧
    (Start c2m2 c2fs).res = Except.ok () ∧
    c2m3.stopChan = { gen := 0, closed := true } ∧
    goSelect false true true = some LoopAction.exit ∧
    Stop c2m3 = none := by
  refine ⟨rfl, rfl, rfl, rfl, rfl, rfl, rfl, rfl⟩

/-- C9 counterexample: with both the interval timer and the stop signal
ready, the `select` of `monitorLoop` may take the timer case and run a
further scan — the stop signal does not win by priority. -/
theorem c9_stop_priority_counterexample :
    goSelect true true false = some LoopAction.scan ∧
    some LoopAction.scan ≠ some LoopAction.exit := by
  refine ⟨rfl, by decide⟩

/-- C9 amended: when the stop signal is ready, the loop exits unless
the timer is simultaneously ready, in which case Go's `select` chooses
between exiting and performing one further scan at random; the stop
case is guaranteed only when it alone is ready. -/
theorem c9_stop_wins_only_alone (t pick : Bool) :
    (goSelect t true pick = some LoopAction.exit ∨
      (t = true ∧ pick = false ∧ goSelect t true pick = some LoopAction.scan)) ∧
    (t = false → goSelect t true pick = some LoopAction.exit) := by
  cases t <;> cases pick <;> simp [goSelect]

/-- Witness for the amended C9 statement with only the stop case ready. -/
theorem c9_stop_wins_only_alone_witness :
    false = false ∧ goSelect false true true = some LoopAction.exit :=
  ⟨rfl, (c9_stop_wins_only_alone false true).2 rfl⟩

/-- Once some serialised critical section has set the running flag,
every later `Start` check-and-set loses. -/
lemma runStartCS_count_true_zero :
    ∀ (k : Nat) (m : FileMonitor), m.isRunnig = true →
      (runStartCS k m).count true = 0
  | 0, _, _ => rfl
  | Nat.succ k, m, h => by
      rw [runStartCS]
      have hcs : startCS m = (false, m) := by rw [startCS, if_pos h]
      rw [hcs]
      simp [runStartCS_count_true_zero k m h]

/-- A scan never touches the running flag. -/
lemma scanDirectory_isRunnig (m : FileMonitor) (fs : FSNode) :
    (scanDirectory m fs).monitor.isRunnig = m.isRunnig := by
  unfold scanDirectory
  cases walkNode m.logDir m.ignoreExts m.watchDir fs <;> rfl

/-- A successful `Start` leaves the monitor in the running state. -/
lemma start_ok_isRunnig (m : FileMonitor) (fs : FSNode)
    (h : (Start m fs).res = Except.ok ()) :
    (Start m fs).monitor.isRunnig = true := by
  by_cases hr : m.isRunnig = true
  · rw [Start, if_pos hr] at h
    simp at h
  · have hscan := scanDirectory_isRunnig { m with isRunnig := true } fs
    rw [Start, if_neg hr] at h ⊢
    dsimp only [] at h ⊢
    cases herr : (scanDirectory { m with isRunnig := true } fs).err with
    | none => exact hscan
    | some e =>
        rw [herr] at h
        simp at h

/-- C3: `Start` returns the `AlreadyRunning` guard error iff the monitor
is already running when the call's critical section runs; in that case
it changes nothing and spawns no loop (so a second `Start` after a
successful one is refused without spawning); and because the check and
the flag-set are one atomic mutex-protected step, any serialisation of
concurrently called `Start` critical sections lets exactly one proceed. -/
theorem c3_already_running_guard (m : FileMonitor) (fs fs2 : FSNode) (n : Nat) :
    ((Start m fs).res = Except.error StartErr.alreadyRunning ↔ m.isRunnig = true) ∧
    (m.isRunnig = true →
      Start m fs = { res := Except.error StartErr.alreadyRunning, events := [],
                     monitor := m, spawned := false }) ∧
    ((Start m fs).res = Except.ok () →
      (Start (Start m fs).monitor fs2).res = Except.error StartErr.alreadyRunning ∧
      (Start (Start m fs).monitor fs2).spawned = false) ∧
    (m.isRunnig = false → (runStartCS (n + 1) m).count true = 1) := by
  have hstart : ∀ _ : m.isRunnig = true,
      Start m fs = { res := Except.error StartErr.alreadyRunning, events := [],
                     monitor := m, spawned := false } := by
    intro hr
    unfold Start
    rw [if_pos hr]
  refine ⟨?_, hstart, ?_, ?_⟩
  · constructor
    · intro hres
      by_cases hr : m.isRunnig = true
      · exact hr
      · exfalso
        unfold Start at hres
        rw [if_neg hr] at hres
        dsimp only [] at hres
        cases herr : (scanDirectory { m with isRunnig := true } fs).err with
        | none => rw [herr] at hres; simp at hres
        | some e => rw [herr] at hres; simp at hres
    · intro hr
      rw [hstart hr]
  · intro hok
    have hrun := start_ok_isRunnig m fs hok
    rw [Start, if_pos hrun]
    exact ⟨rfl, rfl⟩
  · intro hr
    rw [runStartCS]
    have hcs : startCS m = (true, { m with isRunnig := true }) := by
      rw [startCS, if_neg (by simp [hr])]
    rw [hcs]
    simp [runStartCS_count_true_zero n { m with isRunnig := true } rfl]

/-- Witness for C3: a running monitor is refused unchanged, and of two
serialised `Start` critical sections on a fresh monitor exactly one
proceeds. -/
theorem c3_already_running_guard_witness :
    ((NewFileMonitor "." "./logs" [".temp", ".swp"]).isRunnig = false ∧
      (runStartCS 2 (NewFileMonitor "." "./logs" [".temp", ".swp"])).count true = 1) ∧
    (({ NewFileMonitor "." "./logs" [".temp", ".swp"] with isRunnig := true } : FileMonitor).isRunnig = true ∧
      Start { NewFileMonitor "." "./logs" [".temp", ".swp"] with isRunnig := true }
          (FSNode.dir "." 64 0 false []) =
        { res := Except.error StartErr.alreadyRunning, events := [],
          monitor := { NewFileMonitor "." "./logs" [".temp", ".swp"] with isRunnig := true },
          spawned := false }) :=
  ⟨⟨rfl, (c3_already_running_guard (NewFileMonitor "." "./logs" [".temp", ".swp"])
      (FSNode.dir "." 64 0 false []) (FSNode.dir "." 64 0 false []) 1).2.2.2 rfl⟩,
   ⟨rfl, (c3_already_running_guard
      { NewFileMonitor "." "./logs" [".temp", ".swp"] with isRunnig := true }
      (FSNode.dir "." 64 0 false []) (FSNode.dir "." 64 0 false []) 0).2.1 rfl⟩⟩

/-- C4: when the synchronous initial scan inside `Start` fails, `Start`
rolls the running flag back, spawns nothing, emits nothing, returns the
scan's error, and leaves the monitor exactly as before the call. -/
theorem c4_start_scan_error_rolls_back (m : FileMonitor) (fs : FSNode) (e : String)
    (hrun : m.isRunnig = false)
    (hw : walkNode m.logDir m.ignoreExts m.watchDir fs = Except.error e) :
    Start m fs = { res := Except.error (StartErr.scanFailed e), events := [],
                   monitor := m, spawned := false } := by
  obtain ⟨wd, ld, ie, fl, ir, sc⟩ := m
  change ir = false at hrun
  subst hrun
  change walkNode ld ie wd fs = Except.error e at hw
  simp [Start, scanDirectory, hw]

/-- Witness for C4 at an unreadable watch root. -/
theorem c4_start_scan_error_rolls_back_witness :
    (NewFileMonitor "." "./logs" [".temp", ".swp"]).isRunnig = false ∧
    walkNode "./logs" [".temp", ".swp"] "." (FSNode.dir "." 64 0 true []) =
      Except.error "lstat ." ∧
    Start (NewFileMonitor "." "./logs" [".temp", ".swp"]) (FSNode.dir "." 64 0 true []) =
      { res := Except.error (StartErr.scanFailed "lstat ."), events := [],
        monitor := NewFileMonitor "." "./logs" [".temp", ".swp"], spawned := false } :=
  ⟨rfl, rfl,
   c4_start_scan_error_rolls_back (NewFileMonitor "." "./logs" [".temp", ".swp"])
     (FSNode.dir "." 64 0 true []) "lstat ." rfl rfl⟩

/-- C8: a per-entry stat error during the walk aborts the whole scan
with that error: no change event is emitted and the stored snapshot is
left untouched (the partial snapshot is never swapped in). -/
theorem c8_scan_error_aborts (m : FileMonitor) (fs : FSNode) (e : String)
    (hw : walkNode m.logDir m.ignoreExts m.watchDir fs = Except.error e) :
    scanDirectory m fs = { err := some e, events := [], monitor := m } := by
  unfold scanDirectory
  rw [hw]

/-- Witness for C8 with a stat error on a child entry. -/
theorem c8_scan_error_aborts_witness :
    walkNode "./logs" [".temp", ".swp"] "."
        (FSNode.dir "." 64 0 false [FSNode.file "a.txt" 10 1 true]) =
      Except.error "lstat a.txt" ∧
    scanDirectory (NewFileMonitor "." "./logs" [".temp", ".swp"])
        (FSNode.dir "." 64 0 false [FSNode.file "a.txt" 10 1 true]) =
      { err := some "lstat a.txt", events := [],
        monitor := NewFileMonitor "." "./logs" [".temp", ".swp"] } :=
  ⟨rfl,
   c8_scan_error_aborts (NewFileMonitor "." "./logs" [".temp", ".swp"])
     (FSNode.dir "." 64 0 false [FSNode.file "a.txt" 10 1 true]) "lstat a.txt" rfl⟩

mutual
/-- Every entry a successful walk records carries the empty fingerprint:
the scan path never invokes the hashing helper, so `Hash` keeps the
string zero value `""`. -/
theorem walkNode_hash_empty (logDir : String) (ignoreExts : List String) :
    ∀ (fs : FSNode) (path : String) (s : Snap),
      walkNode logDir ignoreExts path fs = Except.ok s →
      ∀ kv ∈ s, kv.2.hash = ""
  | FSNode.file nm size mt se, path, s, h => by
      simp only [walkNode] at h
      split at h
      · simp at h
      · split at h
        · simp only [Except.ok.injEq] at h
          subst h
          intro kv hkv
          simp at hkv
        · simp only [Except.ok.injEq] at h
          subst h
          intro kv hkv
          simp only [List.mem_singleton] at hkv
          subst hkv
          rfl
  | FSNode.dir nm size mt se children, path, s, h => by
      simp only [walkNode] at h
      split at h
      · simp at h
      · split at h
        · simp only [Except.ok.injEq] at h
          subst h
          intro kv hkv
          simp at hkv
        · split at h
          · simp at h
          · rename_i rest heq
            simp only [Except.ok.injEq] at h
            subst h
            intro kv hkv
            rcases List.mem_cons.mp hkv with hkv | hkv
            · subst hkv; rfl
            · exact walkChildren_hash_empty logDir ignoreExts children path rest heq kv hkv

/-- Companion of `walkNode_hash_empty` for a child list. -/
theorem walkChildren_hash_empty (logDir : String) (ignoreExts : List String) :
    ∀ (cs : List FSNode) (dirPath : String) (s : Snap),
      walkChildren logDir ignoreExts dirPath cs = Except.ok s →
      ∀ kv ∈ s, kv.2.hash = ""
  | [], dirPath, s, h => by
      simp only [walkChildren, Except.ok.injEq] at h
      subst h
      intro kv hkv
      simp at hkv
  | c :: cs, dirPath, s, h => by
      simp only [walkChildren] at h
      split at h
      · simp at h
      · rename_i s1 heq1
        split at h
        · simp at h
        · rename_i s2 heq2
          simp only [Except.ok.injEq] at h
          subst h
          intro kv hkv
          rcases List.mem_append.mp hkv with hkv | hkv
          · exact walkNode_hash_empty logDir ignoreExts c (joinPath dirPath c.name) s1 heq1 kv hkv
          · exact walkChildren_hash_empty logDir ignoreExts cs dirPath s2 heq2 kv hkv
end

/-- C10: every `FileInfo` a scan records has an empty fingerprint, and
for entries with an empty fingerprint the source's modification test
degenerates to the size/mod-time comparison — the fingerprint clause
can never fire for scanned snapshots. -/
theorem c10_fingerprint_never_set (logDir : String) (ignoreExts : List String)
    (path : String) (fs : FSNode) (s : Snap)
    (hok : walkNode logDir ignoreExts path fs = Except.ok s) :
    (∀ kv ∈ s, kv.2.hash = "") ∧
    (∀ ni oi : FileInfo, ni.hash = "" →
      (modCond ni oi ↔
        ni.isDir = false ∧ (ni.size ≠ oi.size ∨ ni.modTime ≠ oi.modTime))) := by
  refine ⟨walkNode_hash_empty logDir ignoreExts fs path s hok, ?_⟩
  intro ni oi hh
  unfold modCond
  rw [hh]
  simp

/-- Witness for C10 at a one-file walk. -/
theorem c10_fingerprint_never_set_witness :
    walkNode "./logs" [".temp", ".swp"] "a.txt" (FSNode.file "a.txt" 1 0 false) =
      Except.ok [("a.txt", { path := "a.txt", size := 1, modTime := 0, hash := "", isDir := false })] ∧
    ({ path := "a.txt", size := 1, modTime := 0, hash := "", isDir := false } : FileInfo).hash = "" :=
  ⟨rfl,
   (c10_fingerprint_never_set "./logs" [".temp", ".swp"] "a.txt"
      (FSNode.file "a.txt" 1 0 false)
      [("a.txt", { path := "a.txt", size := 1, modTime := 0, hash := "", isDir := false })]
      rfl).1
     ("a.txt", { path := "a.txt", size := 1, modTime := 0, hash := "", isDir := false })
     (by simp)⟩
